import Mathlib

/-!
Verification development for the ArtihcusScanner QR attendance application.

The definitions below are a shallow embedding of the JavaScript services
`src/services/supabase.js` (scan classification and the attendance writer)
and `src/services/attendanceReports.js` (QR signature / freshness
verification and the daily report fold).  JavaScript numbers are modelled
as `Nat` / `Int` / `ℚ` with exact arithmetic; timestamps are epoch
milliseconds (`Int`); the hosted database is modelled as explicit lists of
rows, and the PostgREST `.single()` call as a function that yields a row
exactly when the filtered result set has exactly one element.
-/

namespace ArtihcusScanner

/-- The four scan-type tags stored in `attendance_records.scan_type`. -/
inductive ScanType where
  | check_in
  | lunch_out
  | lunch_in
  | check_out
deriving DecidableEq

/-- Result of `detectScanType`: the classified type plus lateness flags. -/
structure ScanClass where
  scanType : ScanType
  isLate : Bool
  isEarly : Bool
deriving DecidableEq

/-- 12:00, in minutes from midnight (`LUNCH_START` in the source). -/
def LUNCH_START : Nat := 12 * 60

/-- 14:00, in minutes from midnight; defined but never used by the source. -/
def LUNCH_END : Nat := 14 * 60

/-- 9:00, in minutes from midnight (`EXPECTED_CHECK_IN` in the source). -/
def EXPECTED_CHECK_IN : Nat := 9 * 60

/-- 18:00, in minutes from midnight (`EXPECTED_CHECK_OUT` in the source). -/
def EXPECTED_CHECK_OUT : Nat := 18 * 60

/-- The 15-minute grace period (`LATE_THRESHOLD` in the source). -/
def LATE_THRESHOLD : Nat := 15

/-- Embedding of `detectScanType` from `src/services/supabase.js`
(lines 24-78).  The database query that collects today's scan types for
the employee is factored out: `scanTypes` is the list of `scan_type`
values already recorded today, and `hour` / `minutes` are
`scanTime.getHours()` / `scanTime.getMinutes()`.  The `!supabase`
early-return for a missing client configuration is outside this model. -/
def detectScanType (scanTypes : List ScanType) (hour minutes : Nat) : ScanClass :=
  let currentTime := hour * 60 + minutes
  if ScanType.check_in ∉ scanTypes then
    { scanType := ScanType.check_in,
      isLate := decide (currentTime > EXPECTED_CHECK_IN + LATE_THRESHOLD),
      isEarly := false }
  else if ScanType.lunch_out ∉ scanTypes ∧ LUNCH_START ≤ currentTime then
    { scanType := ScanType.lunch_out, isLate := false, isEarly := false }
  else if ScanType.lunch_out ∈ scanTypes ∧ ScanType.lunch_in ∉ scanTypes then
    { scanType := ScanType.lunch_in, isLate := false, isEarly := false }
  else if ScanType.lunch_in ∈ scanTypes ∧ ScanType.check_out ∉ scanTypes then
    { scanType := ScanType.check_out, isLate := false,
      isEarly := decide (currentTime < EXPECTED_CHECK_OUT) }
  else
    { scanType := ScanType.check_out, isLate := false, isEarly := false }

/-- C3: with no prior check-in recorded today, the classifier always emits
`check_in`, and flags it late exactly when the scan's minutes-of-day
exceed 9:15 (555 minutes): 09:15 itself is on time, 09:16 is late. -/
theorem detectScanType_no_check_in (scanTypes : List ScanType) (hour minutes : Nat)
    (h : ScanType.check_in ∉ scanTypes) :
    (detectScanType scanTypes hour minutes).scanType = ScanType.check_in ∧
    ((detectScanType scanTypes hour minutes).isLate = true ↔
      hour * 60 + minutes > 9 * 60 + 15) := by
  simp [detectScanType, h, EXPECTED_CHECK_IN, LATE_THRESHOLD]

theorem detectScanType_no_check_in_witness :
    (ScanType.check_in ∉ ([] : List ScanType) ∧
      (detectScanType [] 9 15).scanType = ScanType.check_in ∧
      ((detectScanType [] 9 15).isLate = true ↔ 9 * 60 + 15 > 9 * 60 + 15)) ∧
    (detectScanType [] 9 15).isLate = false ∧
    (detectScanType [] 9 16).isLate = true := by
  refine ⟨⟨by decide, detectScanType_no_check_in [] 9 15 (by decide)⟩, by decide, by decide⟩

/-- C5: a second scan for an employee who has only a check-in, issued
strictly before 12:00, matches none of the four ordered rules and falls
through to the catch-all branch, which emits `check_out`. -/
theorem detectScanType_morning_gap (scanTypes : List ScanType) (hour minutes : Nat)
    (hin : ScanType.check_in ∈ scanTypes)
    (hlo : ScanType.lunch_out ∉ scanTypes)
    (hli : ScanType.lunch_in ∉ scanTypes)
    (hco : ScanType.check_out ∉ scanTypes)
    (ht : hour * 60 + minutes < 12 * 60) :
    detectScanType scanTypes hour minutes =
      { scanType := ScanType.check_out, isLate := false, isEarly := false } := by
  have h1 : ¬ (ScanType.lunch_out ∉ scanTypes ∧ LUNCH_START ≤ hour * 60 + minutes) := by
    intro hc
    exact absurd hc.2 (by simpa [LUNCH_START] using Nat.not_le.mpr ht)
  simp [detectScanType, hin, hlo, hli, h1]
  simpa [LUNCH_START] using ht

theorem detectScanType_morning_gap_witness :
    detectScanType [ScanType.check_in] 10 30 =
      { scanType := ScanType.check_out, isLate := false, isEarly := false } :=
  detectScanType_morning_gap [ScanType.check_in] 10 30 (by decide) (by decide)
    (by decide) (by decide) (by decide)

/-- C4 counterexample: the set {lunch_in} contains `lunch_in` and not
`check_out`, yet the classifier's first rule fires (no check-in recorded)
and the scan is classified `check_in`, not `check_out` as the claim,
quantified over every such set, requires. -/
theorem detectScanType_lunch_in_only_cex :
    ScanType.lunch_in ∈ [ScanType.lunch_in] ∧
    ScanType.check_out ∉ [ScanType.lunch_in] ∧
    (detectScanType [ScanType.lunch_in] 17 59).scanType ≠ ScanType.check_out := by
  decide

/-- C4 amended: for every prior-scan set containing `check_in`,
`lunch_out` and `lunch_in` but not `check_out`, the classifier emits
`check_out`, flagged as an early departure exactly when the scan's
minutes-of-day are strictly below 18:00 (1080): 17:59 is early, 18:00
and 18:01 are not. -/
theorem detectScanType_check_out_rule (scanTypes : List ScanType) (hour minutes : Nat)
    (hin : ScanType.check_in ∈ scanTypes)
    (hlo : ScanType.lunch_out ∈ scanTypes)
    (hli : ScanType.lunch_in ∈ scanTypes)
    (hco : ScanType.check_out ∉ scanTypes) :
    (detectScanType scanTypes hour minutes).scanType = ScanType.check_out ∧
    ((detectScanType scanTypes hour minutes).isEarly = true ↔
      hour * 60 + minutes < 18 * 60) := by
  simp [detectScanType, hin, hlo, hli, hco, EXPECTED_CHECK_OUT]

theorem detectScanType_check_out_rule_witness :
    (ScanType.check_in ∈ [ScanType.check_in, ScanType.lunch_out, ScanType.lunch_in] ∧
      (detectScanType [ScanType.check_in, ScanType.lunch_out, ScanType.lunch_in] 17 59).scanType
        = ScanType.check_out ∧
      ((detectScanType [ScanType.check_in, ScanType.lunch_out, ScanType.lunch_in] 17 59).isEarly
          = true ↔ 17 * 60 + 59 < 18 * 60)) ∧
    (detectScanType [ScanType.check_in, ScanType.lunch_out, ScanType.lunch_in] 17 59).isEarly
      = true ∧
    (detectScanType [ScanType.check_in, ScanType.lunch_out, ScanType.lunch_in] 18 1).isEarly
      = false := by
  refine ⟨⟨by decide, detectScanType_check_out_rule
    [ScanType.check_in, ScanType.lunch_out, ScanType.lunch_in] 17 59
    (by decide) (by decide) (by decide) (by decide)⟩, by decide, by decide⟩

/-- C10: the classifier's result is always one of the four scan types;
`isLate` can only accompany a `check_in` emitted by rule 1, `isEarly` can
only accompany a `check_out` emitted by rule 4 (lunch-in present,
check-out absent), and when all four types are already recorded the
catch-all branch leaves both flags false. -/
theorem detectScanType_invariants (scanTypes : List ScanType) (hour minutes : Nat) :
    ((detectScanType scanTypes hour minutes).scanType = ScanType.check_in ∨
      (detectScanType scanTypes hour minutes).scanType = ScanType.lunch_out ∨
      (detectScanType scanTypes hour minutes).scanType = ScanType.lunch_in ∨
      (detectScanType scanTypes hour minutes).scanType = ScanType.check_out) ∧
    ((detectScanType scanTypes hour minutes).isLate = true →
      (detectScanType scanTypes hour minutes).scanType = ScanType.check_in ∧
        ScanType.check_in ∉ scanTypes) ∧
    ((detectScanType scanTypes hour minutes).isEarly = true →
      (detectScanType scanTypes hour minutes).scanType = ScanType.check_out ∧
        ScanType.lunch_in ∈ scanTypes ∧ ScanType.check_out ∉ scanTypes) ∧
    (ScanType.check_in ∈ scanTypes → ScanType.lunch_out ∈ scanTypes →
      ScanType.lunch_in ∈ scanTypes → ScanType.check_out ∈ scanTypes →
      (detectScanType scanTypes hour minutes).isLate = false ∧
        (detectScanType scanTypes hour minutes).isEarly = false) := by
  by_cases h1 : ScanType.check_in ∈ scanTypes
  · by_cases h2 : ScanType.lunch_out ∈ scanTypes
    · by_cases h3 : ScanType.lunch_in ∈ scanTypes
      · by_cases h4 : ScanType.check_out ∈ scanTypes
        · simp [detectScanType, h1, h2, h3, h4]
        · simp [detectScanType, h1, h2, h3, h4]
      · simp [detectScanType, h1, h2, h3]
    · by_cases hT : LUNCH_START ≤ hour * 60 + minutes
      · simp [detectScanType, h1, h2, hT]
      · by_cases h3 : ScanType.lunch_in ∈ scanTypes
        · by_cases h4 : ScanType.check_out ∈ scanTypes
          · simp [detectScanType, h1, h2, hT, h3, h4]
          · simp [detectScanType, h1, h2, hT, h3, h4]
        · simp [detectScanType, h1, h2, hT, h3]
  · simp [detectScanType, h1]

theorem detectScanType_invariants_witness :
    (detectScanType [ScanType.check_in, ScanType.lunch_out, ScanType.lunch_in,
        ScanType.check_out] 9 30).isLate = false ∧
    (detectScanType [ScanType.check_in, ScanType.lunch_out, ScanType.lunch_in,
        ScanType.check_out] 9 30).isEarly = false :=
  (detectScanType_invariants [ScanType.check_in, ScanType.lunch_out, ScanType.lunch_in,
    ScanType.check_out] 9 30).2.2.2 (by decide) (by decide) (by decide) (by decide)

/-- The QR payload consumed by the scanner (`qrData` in the source):
employee identity, display fields, the claimed check-in timestamp and the
hex HMAC signature.  `department` is optional in the payload. -/
structure QrData where
  employeeId : String
  firstName : String
  lastName : String
  role : String
  department : Option String
  checkInTime : String
  signature : String
deriving DecidableEq

/-- Default HMAC secret (`SECRET_KEY` in `attendanceReports.js`); the
environment may override it, so the verifier below is parametrised over
the key actually in use. -/
def SECRET_KEY : String := "artihcus_attendance_secret_2025"

/-- The canonical pipe-delimited string signed by the mobile app
(`dataToSign` in `verifyQrSignature`): `department || ''` maps an absent
department to the empty string. -/
def dataToSign (q : QrData) : String :=
  q.employeeId ++ "|" ++ q.firstName ++ "|" ++ q.lastName ++ "|" ++ q.role ++ "|"
    ++ q.department.getD "" ++ "|" ++ q.checkInTime

/-- Embedding of `verifyQrSignature`.  The CryptoJS `HmacSHA256` primitive
is an external library call, modelled as an abstract function
`hmacSha256Hex key message` returning the hex digest; the verifier's own
logic — building the canonical string and comparing digests with strict
string equality — is embedded exactly. -/
def verifyQrSignature (hmacSha256Hex : String → String → String)
    (secretKey : String) (q : QrData) : Bool :=
  hmacSha256Hex secretKey (dataToSign q) == q.signature

/-- C1: `verifyQrSignature` returns true exactly when the recomputed hex
digest of the canonical string
`employeeId|firstName|lastName|role|department-or-empty|checkInTime`
under the secret key equals the payload's `signature` field byte for
byte (string equality is case-sensitive). -/
theorem verifyQrSignature_iff (hmacSha256Hex : String → String → String)
    (secretKey : String) (q : QrData) :
    verifyQrSignature hmacSha256Hex secretKey q = true ↔
      hmacSha256Hex secretKey
        (q.employeeId ++ "|" ++ q.firstName ++ "|" ++ q.lastName ++ "|" ++ q.role ++ "|"
          ++ q.department.getD "" ++ "|" ++ q.checkInTime) = q.signature := by
  simp [verifyQrSignature, dataToSign]

/-- Embedding of `isTimestampFresh`.  `new Date(checkInTime)` and
`new Date()` are modelled by their epoch-millisecond values `qrMs` and
`nowMs`; `ageInSeconds = (now - qrTime) / 1000` is exact rational
division, and the guard is `0 <= age && age <= 60`. -/
def isTimestampFresh (nowMs qrMs : Int) : Bool :=
  let ageInSeconds : ℚ := ((nowMs - qrMs : Int) : ℚ) / 1000
  decide (0 ≤ ageInSeconds ∧ ageInSeconds ≤ 60)

/-- C2: the freshness check accepts exactly the ages in the closed
interval [0, 60] seconds (0 to 60000 milliseconds); an age of -1 seconds
(a payload from the future) and an age of 61 seconds are both rejected. -/
theorem isTimestampFresh_iff (nowMs qrMs : Int) :
    (isTimestampFresh nowMs qrMs = true ↔
      0 ≤ nowMs - qrMs ∧ nowMs - qrMs ≤ 60000) ∧
    isTimestampFresh 0 1000 = false ∧
    isTimestampFresh 61000 0 = false := by
  refine ⟨?_, by norm_num [isTimestampFresh], by norm_num [isTimestampFresh]⟩
  have h1000 : (0:ℚ) < 1000 := by norm_num
  simp only [isTimestampFresh, decide_eq_true_eq]
  rw [le_div_iff₀ h1000, div_le_iff₀ h1000, zero_mul]
  constructor
  · rintro ⟨h0, h60⟩
    refine ⟨by exact_mod_cast h0, ?_⟩
    have h : ((nowMs - qrMs : Int) : ℚ) ≤ 60000 := by linarith
    exact_mod_cast h
  · rintro ⟨h0, h60⟩
    refine ⟨by exact_mod_cast h0, ?_⟩
    have h : ((nowMs - qrMs : Int) : ℚ) ≤ 60000 := by exact_mod_cast h60
    linarith

/-- One row of the `attendance_records` table, with the fields the writer
inserts.  `scanned_at` is the epoch-millisecond value of the scan
timestamp; `scanned_date` is the derived ISO date the queries filter on
(the insert itself relies on the database deriving it from
`scanned_at`). -/
structure AttendanceRecord where
  employee_id : String
  employee_name : String
  employee_role : String
  department : Option String
  check_in_time : String
  scanned_at : Int
  scanned_date : String
  scan_type : ScanType
  is_late : Bool
  is_early_departure : Bool
  is_half_day : Bool
  signature_verified : Bool
  qr_data : Option QrData
deriving DecidableEq

/-- One row of the `leave_requests` table (the fields the writer reads). -/
structure LeaveRequest where
  employee_id : String
  leave_date : String
  leave_type : String
  status : String
deriving DecidableEq

/-- The backend database as seen by the services: the two tables used by
the attendance writer. -/
structure Db where
  attendance_records : List AttendanceRecord
  leave_requests : List LeaveRequest
deriving DecidableEq

/-- PostgREST `.single()`: yields the row when the filtered result set has
exactly one element, and `none` (an error, which the source discards by
destructuring only `data`) otherwise. -/
def singleQuery {α : Type} (rows : List α) : Option α :=
  match rows with
  | [x] => some x
  | _ => none

/-- The moment of a scan: the ISO date string `toISOString().split('T')[0]`,
the local-time projections `getHours()` / `getMinutes()`, and the raw
epoch milliseconds stored in `scanned_at`. -/
structure ScanTime where
  date : String
  hour : Nat
  minute : Nat
  epochMs : Int
deriving DecidableEq

/-- The scan-type list `detectScanType` builds from its query: the
`scan_type` of every record of this employee dated today (the source
also orders by `scanned_at`, which only affects the list order, not the
membership tests the classifier performs). -/
def todayScanTypes (db : Db) (employeeId today : String) : List ScanType :=
  (db.attendance_records.filter
    (fun r => decide (r.employee_id = employeeId ∧ r.scanned_date = today))).map
    (fun r => r.scan_type)

/-- The leave-gate error message built by `markAttendance`: every
non-`full_day` leave type renders as "half day". -/
def leaveErrorMessage (leaveType : String) : String :=
  "You are on " ++ (if leaveType = "full_day" then "full day" else "half day")
    ++ " leave today"

/-- `scanType.replace('_', ' ')` on the four tags. -/
def scanTypeDisplay : ScanType → String
  | ScanType.check_in => "check in"
  | ScanType.lunch_out => "lunch out"
  | ScanType.lunch_in => "lunch in"
  | ScanType.check_out => "check out"

/-- The duplicate-gate error message built by `markAttendance`. -/
def duplicateErrorMessage (st : ScanType) : String :=
  scanTypeDisplay st ++ " already recorded for today"

/-- Result of `markAttendance`: `success`, the error message on failure,
and the classified scan type on success. -/
structure MarkResult where
  success : Bool
  error : Option String
  scanType : Option ScanType
deriving DecidableEq

/-- The `attendance_records` row `markAttendance` inserts for payload
`p`, scan moment `t` and classification `cls`: `employee_name` is
`firstName lastName`, `department || null` maps an empty or absent
department to `null`, `is_half_day = (scanType == check_in && hour < 12)`
and `signature_verified` is hard-coded `true` (verification already ran
in the caller). -/
def insertedRecord (p : QrData) (t : ScanTime) (cls : ScanClass) : AttendanceRecord :=
  { employee_id := p.employeeId,
    employee_name := p.firstName ++ " " ++ p.lastName,
    employee_role := p.role,
    department := p.department.bind (fun d => if d = "" then none else some d),
    check_in_time := p.checkInTime,
    scanned_at := t.epochMs,
    scanned_date := t.date,
    scan_type := cls.scanType,
    is_late := cls.isLate,
    is_early_departure := cls.isEarly,
    is_half_day := cls.scanType == ScanType.check_in && decide (t.hour < 12),
    signature_verified := true,
    qr_data := some p }

/-- Embedding of `markAttendance` from `src/services/supabase.js`
(lines 85-176), returning the result together with the database after the
call.  The gates run in source order: the approved-leave check for
(employee, today), then scan-type classification, then the duplicate
check for (employee, today, scanType); only when all pass is one row
inserted, with `is_half_day = (scanType == check_in && hour < 12)` and
`signature_verified = true`.  A backend insert error (network failure,
constraint violation under a cross-device race) is outside this model:
the insert itself always succeeds here. -/
def markAttendance (db : Db) (p : QrData) (t : ScanTime) : MarkResult × Db :=
  let today := t.date
  let leaveRows := db.leave_requests.filter
    (fun l => decide (l.employee_id = p.employeeId ∧ l.leave_date = today ∧
      l.status = "approved"))
  match singleQuery leaveRows with
  | some leaveRequest =>
    ({ success := false, error := some (leaveErrorMessage leaveRequest.leave_type),
       scanType := none }, db)
  | none =>
    let cls := detectScanType (todayScanTypes db p.employeeId today) t.hour t.minute
    let dupRows := db.attendance_records.filter
      (fun r => decide (r.employee_id = p.employeeId ∧ r.scanned_date = today ∧
        r.scan_type = cls.scanType))
    match singleQuery dupRows with
    | some _ =>
      ({ success := false, error := some (duplicateErrorMessage cls.scanType),
         scanType := none }, db)
    | none =>
      ({ success := true, error := none, scanType := some cls.scanType },
       { db with attendance_records := db.attendance_records ++ [insertedRecord p t cls] })

/-- A list with at most one element that contains `a` is exactly `[a]`. -/
theorem eq_singleton_of_mem_of_length_le {α : Type} {xs : List α} {a : α}
    (ha : a ∈ xs) (hlen : xs.length ≤ 1) : xs = [a] := by
  cases xs with
  | nil => cases ha
  | cons x tail =>
    cases tail with
    | nil =>
      have hax : a = x := by simpa using ha
      simp [hax]
    | cons y t => simp at hlen

/-- C7: with an approved leave request on file for (employee, today) —
and at most one `leave_requests` row for that (employee, date), which is
the table's uniqueness constraint — `markAttendance` fails with the
leave-gate message built from the leave type, before any scan-type
classification, and leaves the database unchanged. -/
theorem markAttendance_leave_gate (db : Db) (p : QrData) (t : ScanTime)
    (l : LeaveRequest) (hmem : l ∈ db.leave_requests)
    (hl : l.employee_id = p.employeeId ∧ l.leave_date = t.date ∧ l.status = "approved")
    (huniq : (db.leave_requests.filter
      (fun l2 => decide (l2.employee_id = p.employeeId ∧ l2.leave_date = t.date))).length ≤ 1) :
    (markAttendance db p t).1.success = false ∧
    (markAttendance db p t).1.error = some (leaveErrorMessage l.leave_type) ∧
    (markAttendance db p t).2 = db := by
  have hmemf : l ∈ db.leave_requests.filter
      (fun l2 => decide (l2.employee_id = p.employeeId ∧ l2.leave_date = t.date ∧
        l2.status = "approved")) :=
    List.mem_filter.mpr ⟨hmem, by simp [hl.1, hl.2.1, hl.2.2]⟩
  have hsub : List.Sublist
      (db.leave_requests.filter
        (fun l2 => decide (l2.employee_id = p.employeeId ∧ l2.leave_date = t.date ∧
          l2.status = "approved")))
      (db.leave_requests.filter
        (fun l2 => decide (l2.employee_id = p.employeeId ∧ l2.leave_date = t.date))) :=
    List.monotone_filter_right _ (fun a ha => by
      simp only [decide_eq_true_eq] at ha ⊢
      exact ⟨ha.1, ha.2.1⟩)
  have hrows : db.leave_requests.filter
      (fun l2 => decide (l2.employee_id = p.employeeId ∧ l2.leave_date = t.date ∧
        l2.status = "approved")) = [l] :=
    eq_singleton_of_mem_of_length_le hmemf (le_trans hsub.length_le huniq)
  simp only [Bool.decide_and] at hrows
  simp [markAttendance, hrows, singleQuery]

theorem markAttendance_leave_gate_witness :
    ((⟨"emp-1", "2025-01-06", "full_day", "approved"⟩ : LeaveRequest) ∈
      (Db.mk [] [⟨"emp-1", "2025-01-06", "full_day", "approved"⟩]).leave_requests) ∧
    (markAttendance (Db.mk [] [⟨"emp-1", "2025-01-06", "full_day", "approved"⟩])
      (QrData.mk "emp-1" "Ada" "Lovelace" "Engineer" none "2025-01-06T09:00:00Z" "sig")
      (ScanTime.mk "2025-01-06" 9 0 32400000)).1.success = false ∧
    (markAttendance (Db.mk [] [⟨"emp-1", "2025-01-06", "full_day", "approved"⟩])
      (QrData.mk "emp-1" "Ada" "Lovelace" "Engineer" none "2025-01-06T09:00:00Z" "sig")
      (ScanTime.mk "2025-01-06" 9 0 32400000)).1.error =
      some (leaveErrorMessage "full_day") ∧
    (markAttendance (Db.mk [] [⟨"emp-1", "2025-01-06", "full_day", "approved"⟩])
      (QrData.mk "emp-1" "Ada" "Lovelace" "Engineer" none "2025-01-06T09:00:00Z" "sig")
      (ScanTime.mk "2025-01-06" 9 0 32400000)).2 =
      Db.mk [] [⟨"emp-1", "2025-01-06", "full_day", "approved"⟩] := by
  refine ⟨by decide, markAttendance_leave_gate _ _ _
    ⟨"emp-1", "2025-01-06", "full_day", "approved"⟩ (by decide)
    ⟨rfl, rfl, rfl⟩ (by decide)⟩

/-- A concrete attendance row for employee emp-1 on 2025-01-06 with the
given scan type, used to build example database states. -/
def sampleRecord (st : ScanType) : AttendanceRecord :=
  { employee_id := "emp-1", employee_name := "Ada Lovelace",
    employee_role := "Engineer", department := some "R&D",
    check_in_time := "2025-01-06T09:00:00Z", scanned_at := 0,
    scanned_date := "2025-01-06", scan_type := st, is_late := false,
    is_early_departure := false, is_half_day := false,
    signature_verified := true, qr_data := none }

/-- An approved full-day leave row for emp-1 on 2025-01-06. -/
def sampleLeave : LeaveRequest :=
  { employee_id := "emp-1", leave_date := "2025-01-06",
    leave_type := "full_day", status := "approved" }

/-- A database holding all four of emp-1's scans for 2025-01-06 together
with an approved full-day leave request for the same employee and date. -/
def leaveAndScansDb : Db :=
  { attendance_records := [sampleRecord ScanType.check_in,
      sampleRecord ScanType.lunch_out, sampleRecord ScanType.lunch_in,
      sampleRecord ScanType.check_out],
    leave_requests := [sampleLeave] }

/-- The payload emp-1 would scan on 2025-01-06. -/
def samplePayload : QrData :=
  { employeeId := "emp-1", firstName := "Ada", lastName := "Lovelace",
    role := "Engineer", department := some "R&D",
    checkInTime := "2025-01-06T18:30:00Z", signature := "0a1b" }

/-- A scan moment on 2025-01-06 at 18:30 local time. -/
def sampleEvening : ScanTime :=
  { date := "2025-01-06", hour := 18, minute := 30, epochMs := 66600000 }

/-- C6 counterexample: in `leaveAndScansDb` a record for (emp-1,
2025-01-06, check_out) — the scan type the classifier assigns to this
scan — already exists, yet `markAttendance` reports the leave-gate error,
not an error naming the scan type, because the leave check runs first. -/
theorem markAttendance_duplicate_cex :
    (detectScanType (todayScanTypes leaveAndScansDb "emp-1" "2025-01-06") 18 30).scanType
      = ScanType.check_out ∧
    sampleRecord ScanType.check_out ∈ leaveAndScansDb.attendance_records ∧
    (markAttendance leaveAndScansDb samplePayload sampleEvening).1.success = false ∧
    (markAttendance leaveAndScansDb samplePayload sampleEvening).1.error ≠
      some (duplicateErrorMessage ScanType.check_out) ∧
    (markAttendance leaveAndScansDb samplePayload sampleEvening).1.error =
      some "You are on full day leave today" := by
  decide

/-- C6 amended: when no approved leave request exists for (employee,
today) and a record for (employee, today, classified scan type) is
already on file — with at most one `attendance_records` row for that
triple, the table's uniqueness constraint — `markAttendance` fails with
the duplicate error naming the scan type and leaves the database
unchanged. -/
theorem markAttendance_duplicate_gate (db : Db) (p : QrData) (t : ScanTime)
    (hnoleave : db.leave_requests.filter
      (fun l => decide (l.employee_id = p.employeeId ∧ l.leave_date = t.date ∧
        l.status = "approved")) = [])
    (r : AttendanceRecord) (hmem : r ∈ db.attendance_records)
    (hr : r.employee_id = p.employeeId ∧ r.scanned_date = t.date ∧
      r.scan_type = (detectScanType (todayScanTypes db p.employeeId t.date)
        t.hour t.minute).scanType)
    (huniq : (db.attendance_records.filter
      (fun r2 => decide (r2.employee_id = p.employeeId ∧ r2.scanned_date = t.date ∧
        r2.scan_type = r.scan_type))).length ≤ 1) :
    (markAttendance db p t).1.success = false ∧
    (markAttendance db p t).1.error = some (duplicateErrorMessage
      (detectScanType (todayScanTypes db p.employeeId t.date) t.hour t.minute).scanType) ∧
    (markAttendance db p t).2 = db := by
  obtain ⟨he, hd, hs⟩ := hr
  rw [hs] at huniq
  have hmemf : r ∈ db.attendance_records.filter
      (fun r2 => decide (r2.employee_id = p.employeeId ∧ r2.scanned_date = t.date ∧
        r2.scan_type = (detectScanType (todayScanTypes db p.employeeId t.date)
          t.hour t.minute).scanType)) :=
    List.mem_filter.mpr ⟨hmem, by simp [he, hd, hs]⟩
  have hrows : db.attendance_records.filter
      (fun r2 => decide (r2.employee_id = p.employeeId ∧ r2.scanned_date = t.date ∧
        r2.scan_type = (detectScanType (todayScanTypes db p.employeeId t.date)
          t.hour t.minute).scanType)) = [r] :=
    eq_singleton_of_mem_of_length_le hmemf huniq
  simp only [Bool.decide_and] at hrows hnoleave
  simp [markAttendance, hnoleave, hrows, singleQuery]

/-- The same four-scan database without any leave request. -/
def scansOnlyDb : Db :=
  { attendance_records := [sampleRecord ScanType.check_in,
      sampleRecord ScanType.lunch_out, sampleRecord ScanType.lunch_in,
      sampleRecord ScanType.check_out],
    leave_requests := [] }

theorem markAttendance_duplicate_gate_witness :
    (markAttendance scansOnlyDb samplePayload sampleEvening).1.success = false ∧
    (markAttendance scansOnlyDb samplePayload sampleEvening).1.error =
      some (duplicateErrorMessage
        (detectScanType (todayScanTypes scansOnlyDb "emp-1" "2025-01-06") 18 30).scanType) ∧
    (markAttendance scansOnlyDb samplePayload sampleEvening).2 = scansOnlyDb :=
  markAttendance_duplicate_gate scansOnlyDb samplePayload sampleEvening (by decide)
    (sampleRecord ScanType.check_out) (by decide) (by decide) (by decide)

/-- C9: whenever `markAttendance` succeeds, exactly one row is appended,
its scan type is the classified one, and its stored `is_half_day` flag is
true exactly when that scan type is `check_in` and the scan hour is
strictly below 12 — the flag is fixed at write time, independent of any
later check-out. -/
theorem markAttendance_half_day (db : Db) (p : QrData) (t : ScanTime)
    (hsuccess : (markAttendance db p t).1.success = true) :
    ∃ r : AttendanceRecord,
      (markAttendance db p t).2.attendance_records = db.attendance_records ++ [r] ∧
      r.scan_type = (detectScanType (todayScanTypes db p.employeeId t.date)
        t.hour t.minute).scanType ∧
      (r.is_half_day = true ↔ (r.scan_type = ScanType.check_in ∧ t.hour < 12)) := by
  rcases hq1 : singleQuery (db.leave_requests.filter
      (fun l => decide (l.employee_id = p.employeeId) &&
        (decide (l.leave_date = t.date) && decide (l.status = "approved")))) with _ | l
  · rcases hq2 : singleQuery (db.attendance_records.filter
        (fun r => decide (r.employee_id = p.employeeId) &&
          (decide (r.scanned_date = t.date) &&
            decide (r.scan_type = (detectScanType (todayScanTypes db p.employeeId t.date)
              t.hour t.minute).scanType)))) with _ | r0
    · refine ⟨insertedRecord p t (detectScanType (todayScanTypes db p.employeeId t.date)
        t.hour t.minute), ?_, rfl, ?_⟩
      · simp [markAttendance, hq1, hq2]
      · simp [insertedRecord]
    · exfalso
      simp [markAttendance, hq1, hq2] at hsuccess
  · exfalso
    simp [markAttendance, hq1] at hsuccess

/-- An empty database: no scans, no leave requests. -/
def emptyDb : Db := { attendance_records := [], leave_requests := [] }

/-- A scan moment on 2025-01-06 at 09:00 local time. -/
def sampleMorning : ScanTime :=
  { date := "2025-01-06", hour := 9, minute := 0, epochMs := 32400000 }

theorem markAttendance_half_day_witness :
    (markAttendance emptyDb samplePayload sampleMorning).1.success = true ∧
    ∃ r : AttendanceRecord,
      (markAttendance emptyDb samplePayload sampleMorning).2.attendance_records =
        emptyDb.attendance_records ++ [r] ∧
      r.scan_type = (detectScanType (todayScanTypes emptyDb samplePayload.employeeId
        sampleMorning.date) sampleMorning.hour sampleMorning.minute).scanType ∧
      (r.is_half_day = true ↔
        (r.scan_type = ScanType.check_in ∧ sampleMorning.hour < 12)) :=
  ⟨by decide, markAttendance_half_day emptyDb samplePayload sampleMorning (by decide)⟩

/-- The first record of the given scan type in the day's scan list
(`scans.find(s => s.scan_type === ...)` in `getDailySummary`). -/
def findScan (scans : List AttendanceRecord) (st : ScanType) : Option AttendanceRecord :=
  scans.find? (fun s => decide (s.scan_type = st))

/-- `parseFloat(q.toFixed(2))`: rounding the exact rational to two
decimal places (JS floating-point noise is not modelled). -/
def jsToFixed2 (q : ℚ) : ℚ := ((round (q * 100) : ℤ) : ℚ) / 100

/-- `totalHours ? parseFloat(totalHours.toFixed(2)) : null`: JS numeric
truthiness maps a computed 0 to `null`. -/
def jsHoursOrNull (q : ℚ) : Option ℚ := if q = 0 then none else some (jsToFixed2 q)

/-- `lunchDuration ? Math.round(lunchDuration) : null`: likewise, a
computed 0 becomes `null`, otherwise the value is rounded to an
integer. -/
def jsMinutesOrNull (q : ℚ) : Option ℤ := if q = 0 then none else some (round q)

/-- The `data` object `getDailySummary` resolves with. -/
structure DailySummaryData where
  date : String
  checkIn : Option AttendanceRecord
  lunchOut : Option AttendanceRecord
  lunchIn : Option AttendanceRecord
  checkOut : Option AttendanceRecord
  totalHours : Option ℚ
  lunchDuration : Option ℤ
  isComplete : Bool
  isHalfDay : Bool
  isLate : Bool
  isEarlyDeparture : Bool
  leave : Option LeaveRequest
deriving DecidableEq

/-- Embedding of `getDailySummary` from
`src/services/attendanceReports.js` (lines 9-84).  The two backend reads
are factored out: `scans` is the day's record list for the employee
(ordered by `scanned_at`) and `leave` the result of the approved-leave
lookup.  Working time is computed from `scanned_at` epoch-millisecond
differences, divided by 1000*60 into minutes; the lunch gap is subtracted
only when both lunch records exist. -/
def getDailySummary (dateStr : String) (scans : List AttendanceRecord)
    (leave : Option LeaveRequest) : DailySummaryData :=
  let checkIn := findScan scans ScanType.check_in
  let lunchOut := findScan scans ScanType.lunch_out
  let lunchIn := findScan scans ScanType.lunch_in
  let checkOut := findScan scans ScanType.check_out
  let rawPair : Option ℚ × Option ℚ :=
    match checkIn, checkOut with
    | some ci, some co =>
      let totalMinutes : ℚ := ((co.scanned_at - ci.scanned_at : Int) : ℚ) / (1000 * 60)
      match lunchOut, lunchIn with
      | some lo, some li =>
        let lunchMinutes : ℚ := ((li.scanned_at - lo.scanned_at : Int) : ℚ) / (1000 * 60)
        (some ((totalMinutes - lunchMinutes) / 60), some lunchMinutes)
      | _, _ => (some (totalMinutes / 60), none)
    | _, _ => (none, none)
  { date := dateStr,
    checkIn := checkIn, lunchOut := lunchOut, lunchIn := lunchIn, checkOut := checkOut,
    totalHours := match rawPair.1 with
      | some q => jsHoursOrNull q
      | none => none,
    lunchDuration := match rawPair.2 with
      | some q => jsMinutesOrNull q
      | none => none,
    isComplete := checkIn.isSome && checkOut.isSome,
    isHalfDay := (checkIn.map (fun r => r.is_half_day)).getD false,
    isLate := (checkIn.map (fun r => r.is_late)).getD false,
    isEarlyDeparture := (checkOut.map (fun r => r.is_early_departure)).getD false,
    leave := leave }

/-- A report row: the emp-1 sample record with the given scan type and
`scanned_at` epoch milliseconds. -/
def reportRow (st : ScanType) (ms : Int) : AttendanceRecord :=
  { sampleRecord st with scanned_at := ms }

/-- A day whose check-in/check-out gap exactly equals its lunch gap:
check-in and lunch-out at minute 0, lunch-in and check-out at minute 60. -/
def zeroHoursScans : List AttendanceRecord :=
  [reportRow ScanType.check_in 0, reportRow ScanType.lunch_out 0,
   reportRow ScanType.lunch_in 3600000, reportRow ScanType.check_out 3600000]

/-- C8 counterexample: on `zeroHoursScans` the claim's formula gives
totalHours = (60 - 60) / 60 = 0, but the summary's `totalHours` field is
`null`, not 0, because the source guards the field with JS numeric
truthiness (`totalHours ? ... : null`). -/
theorem getDailySummary_zero_cex :
    (getDailySummary "2025-01-06" zeroHoursScans none).isComplete = true ∧
    (getDailySummary "2025-01-06" zeroHoursScans none).lunchDuration = some 60 ∧
    (getDailySummary "2025-01-06" zeroHoursScans none).totalHours = none ∧
    (getDailySummary "2025-01-06" zeroHoursScans none).totalHours ≠ some 0 := by
  have hfold : (getDailySummary "2025-01-06" zeroHoursScans none).totalHours =
      jsHoursOrNull 0 ∧
      (getDailySummary "2025-01-06" zeroHoursScans none).lunchDuration =
        jsMinutesOrNull 60 := by
    norm_num +decide [getDailySummary, findScan, zeroHoursScans, reportRow,
      sampleRecord, List.find?]
  refine ⟨rfl, ?_, ?_, ?_⟩
  · rw [hfold.2]
    norm_num [jsMinutesOrNull, round_eq]
  · rw [hfold.1]
    norm_num [jsHoursOrNull]
  · rw [hfold.1]
    simp [jsHoursOrNull]

/-- C8 amended: the daily fold selects the first record of each scan type
and reports `isComplete` true exactly when a check-in and a check-out
both exist; in that case `totalHours` is
(checkOut - checkIn - lunchDuration) / 60 in hours (lunchDuration =
lunchIn - lunchOut, subtracted only when both lunch records exist),
rounded to two decimals — except that a computed value of exactly 0 is
reported as `null` by the JS truthiness guard, as is a lunch duration of
exactly 0. -/
theorem getDailySummary_fold (dateStr : String) (scans : List AttendanceRecord)
    (leave : Option LeaveRequest) :
    (getDailySummary dateStr scans leave).isComplete =
      ((findScan scans ScanType.check_in).isSome &&
        (findScan scans ScanType.check_out).isSome) ∧
    ∀ ci co, findScan scans ScanType.check_in = some ci →
      findScan scans ScanType.check_out = some co →
      (∀ lo li, findScan scans ScanType.lunch_out = some lo →
        findScan scans ScanType.lunch_in = some li →
        (getDailySummary dateStr scans leave).totalHours =
          jsHoursOrNull ((((co.scanned_at - ci.scanned_at : Int) : ℚ) / (1000 * 60) -
            ((li.scanned_at - lo.scanned_at : Int) : ℚ) / (1000 * 60)) / 60) ∧
        (getDailySummary dateStr scans leave).lunchDuration =
          jsMinutesOrNull (((li.scanned_at - lo.scanned_at : Int) : ℚ) / (1000 * 60))) ∧
      ((findScan scans ScanType.lunch_out = none ∨
          findScan scans ScanType.lunch_in = none) →
        (getDailySummary dateStr scans leave).totalHours =
          jsHoursOrNull (((co.scanned_at - ci.scanned_at : Int) : ℚ) / (1000 * 60) / 60) ∧
        (getDailySummary dateStr scans leave).lunchDuration = none) := by
  constructor
  · simp [getDailySummary]
  · intro ci co hci hco
    constructor
    · intro lo li hlo hli
      constructor
      · simp [getDailySummary, hci, hco, hlo, hli]
      · simp [getDailySummary, hci, hco, hlo, hli]
    · intro h
      rcases hlo2 : findScan scans ScanType.lunch_out with _ | lo
      · constructor
        · simp [getDailySummary, hci, hco, hlo2]
        · simp [getDailySummary, hci, hco, hlo2]
      · rcases hli2 : findScan scans ScanType.lunch_in with _ | li
        · constructor
          · simp [getDailySummary, hci, hco, hlo2, hli2]
          · simp [getDailySummary, hci, hco, hlo2, hli2]
        · exfalso
          rcases h with h | h
          · rw [hlo2] at h
            exact Option.noConfusion h
          · rw [hli2] at h
            exact Option.noConfusion h

/-- The spec's worked example: check-in 09:00, lunch-out 12:00, lunch-in
13:00, check-out 18:00 (epoch milliseconds within the day). -/
def exampleScans : List AttendanceRecord :=
  [reportRow ScanType.check_in 32400000, reportRow ScanType.lunch_out 43200000,
   reportRow ScanType.lunch_in 46800000, reportRow ScanType.check_out 64800000]

theorem getDailySummary_fold_witness :
    (getDailySummary "2025-01-06" exampleScans none).isComplete = true ∧
    (getDailySummary "2025-01-06" exampleScans none).totalHours = some 8 ∧
    (getDailySummary "2025-01-06" exampleScans none).lunchDuration = some 60 := by
  have h := getDailySummary_fold "2025-01-06" exampleScans none
  have hci : findScan exampleScans ScanType.check_in =
      some (reportRow ScanType.check_in 32400000) := by rfl
  have hco : findScan exampleScans ScanType.check_out =
      some (reportRow ScanType.check_out 64800000) := by rfl
  have hlo : findScan exampleScans ScanType.lunch_out =
      some (reportRow ScanType.lunch_out 43200000) := by rfl
  have hli : findScan exampleScans ScanType.lunch_in =
      some (reportRow ScanType.lunch_in 46800000) := by rfl
  have hmain := (h.2 _ _ hci hco).1 _ _ hlo hli
  refine ⟨by rw [h.1, hci, hco]; rfl, ?_, ?_⟩
  · rw [hmain.1]
    norm_num [jsHoursOrNull, jsToFixed2, reportRow, sampleRecord, round_eq]
  · rw [hmain.2]
    norm_num [jsMinutesOrNull, reportRow, sampleRecord, round_eq]

end ArtihcusScanner
